import Mathlib

set_option autoImplicit false

/-!
Verification of the declaration-emission engine in `src/codegen/general.rs`
of the `gir` repository.  Each Rust emitter writes lines to an output sink
and propagates the first write failure (`try!(writeln!(..))`).  We embed the
sink as a list of written lines together with an optional budget of writes
that will still succeed, and each emitter as an explicit state-passing
function in the `Except` monad, mirroring the Rust control flow.
-/

namespace Gir

/-- Modelled from the spec: `VersionTag` (the `Version` type lives in
`src/version.rs`, which is not part of the visible sources).  The spec only
requires an ordered, comparable value that renders to a condition
expression; the real type is a dotted version number.  We model the
major/minor pair with the lexicographic strict order. -/
structure Version where
  major : Nat
  minor : Nat
  deriving DecidableEq

/-- Strict lexicographic comparison `a > b`, the only comparison the
embedded code performs (`v > env.config.min_cfg_version`). -/
def Version.bgt (a b : Version) : Bool :=
  b.major < a.major || (b.major == a.major && b.minor < a.minor)

/-- Modelled from the spec: rendering of a version to a target-syntax
condition expression (`Version::to_cfg` in `src/version.rs`, not visible).
Any injective rendering works for the claims; we follow the real
`feature = "vX_Y"` shape. -/
def Version.to_cfg (v : Version) : String :=
  "feature = \"v" ++ toString v.major ++ "_" ++ toString v.minor ++ "\""

/-- Modelled from the spec: `tabs` from `src/writer/primitives.rs` (not
visible) renders indentation for a given depth.  All claims use depth 0,
where it renders the empty string. -/
def tabs (indent : Nat) : String :=
  String.mk (List.replicate indent '\t')

/-- Modelled from the spec: `namespaces::MAIN`, the id of the primary
namespace (the compilation unit being generated). -/
def MAIN : Nat := 1

/-- Identifies a type in the library: its namespace id and an index. -/
structure TypeId where
  ns_id : Nat
  id : Nat
  deriving DecidableEq

/-- One supertype of an owned-object type, as consumed by
`define_object_type`: a name, a type id and the ignored flag of its status
(`p.status.ignored()`). -/
structure StatusedTypeId where
  type_id : TypeId
  name : String
  ignored : Bool

/-- The slice of `Env` that `src/codegen/general.rs` reads:
`env.namespaces.glib_ns_id`, `env.namespaces[ns].crate_name`,
`env.library.type_(tid).get_glib_name()` and
`env.config.min_cfg_version`. -/
structure Env where
  glib_ns_id : Nat
  crateName : Nat → String
  getGlibName : TypeId → Option String
  min_cfg_version : Version

/-- One discovered function, as scanned by `declare_default_from_new`:
name, the hidden flag of its visibility (`f.visibility.hidden()`), its
rust parameter list and its minimum version. -/
structure FnInfo where
  name : String
  hidden : Bool
  rust_parameters : List String
  version : Option Version

/-- The output sink: the lines already written, and an optional budget of
how many further writes will succeed before the sink starts failing
(`none` means the sink never fails). -/
structure Sink where
  written : List String
  budget : Option Nat

/-- One `writeln!` call: appends the line, or fails (leaving the sink
unchanged) when the budget is exhausted. -/
def writeLine (s : Sink) (l : String) : Except Sink Sink :=
  match s.budget with
  | none => .ok ⟨s.written ++ [l], none⟩
  | some 0 => .error s
  | some (k + 1) => .ok ⟨s.written ++ [l], some k⟩

/-- Writes a list of lines in order, stopping at the first failure: the
common denotation of every straight-line emitter in the module. -/
def emitLines (s : Sink) (L : List String) : Except Sink Sink :=
  match L with
  | [] => .ok s
  | l :: ls =>
    match writeLine s l with
    | .ok s2 => emitLines s2 ls
    | .error e => .error e

/-- Embedding of `version_condition_string` (general.rs:193-211): returns
the positive gate line when the version is present and exceeds the
configured baseline, and nothing otherwise. -/
def version_condition_string (env : Env) (version : Option Version)
    (commented : Bool) (indent : Nat) : Option String :=
  match version with
  | some v =>
    if Version.bgt v env.min_cfg_version then
      some (tabs indent ++ (if commented then "//" else "")
        ++ "#[cfg(any(" ++ v.to_cfg ++ ", feature = \"dox\"))]")
    else
      none
  | none => none

/-- Embedding of `version_condition` (general.rs:180-191): writes the gate
line of `version_condition_string` when there is one. -/
def version_condition (s : Sink) (env : Env) (version : Option Version)
    (commented : Bool) (indent : Nat) : Except Sink Sink :=
  match version_condition_string env version commented indent with
  | some str => writeLine s str
  | none => .ok s

/-- Embedding of `not_version_condition` (general.rs:213-230): writes the
negated gate line whenever a version is supplied; it takes no environment
and performs no baseline comparison. -/
def not_version_condition (s : Sink) (version : Option Version)
    (commented : Bool) (indent : Nat) : Except Sink Sink :=
  match version with
  | some v =>
    writeLine s (tabs indent ++ (if commented then "//" else "")
      ++ "#[cfg(any(not(" ++ v.to_cfg ++ "), feature = \"dox\"))]")
  | none => .ok s

/-- Embedding of the per-entry import line of `uses` (general.rs:30-34):
when the primary unit is itself the glib namespace and the imported module
is named "glib_ffi", the import is aliased to the unit's own `ffi` module;
otherwise it is emitted verbatim. -/
def importLine (env : Env) (name : String) : String :=
  if env.glib_ns_id == MAIN && name == "glib_ffi" then
    "use ffi as " ++ name ++ ";"
  else
    "use " ++ name ++ ";"

/-- The loop body of `uses` (general.rs:28-35): for each import in order,
the positive version gate (active form, indent 0) then the import line. -/
def usesLoop (env : Env) (imports : List (String × Option Version))
    (s : Sink) : Except Sink Sink :=
  match imports with
  | [] => .ok s
  | (name, version) :: rest => do
    let s ← version_condition s env version false 0
    let s ← writeLine s (importLine env name)
    usesLoop env rest s

/-- Embedding of `uses` (general.rs:26-38): one blank line, then the
gated import lines in iteration order. -/
def uses (s : Sink) (env : Env)
    (imports : List (String × Option Version)) : Except Sink Sink := do
  let s ← writeLine s ""
  usesLoop env imports s

/-- Rendering of one non-ignored supertype in `define_object_type`
(general.rs:53-63), paired with its foreign flag (the contribution it makes
to the `external_parents` mutable flag).  A foreign supertype without a
native glib name renders to `none`: this is the `.unwrap()` panic branch. -/
def renderParent (env : Env) (p : StatusedTypeId) : Option (String × Bool) :=
  if p.type_id.ns_id == MAIN then
    some (p.name, false)
  else
    match env.getGlibName p.type_id with
    | some fname =>
      some (env.crateName p.type_id.ns_id ++ "::" ++ p.name ++ " => "
        ++ env.crateName p.type_id.ns_id ++ "_ffi::" ++ fname, true)
    | none => none

/-- Renders each supertype of a list in order, `none` as soon as one
rendering panics (the early-exit semantics of collecting the Rust
iterator whose closure can panic). -/
def renderParents (env : Env) : List StatusedTypeId → Option (List (String × Bool))
  | [] => some []
  | p :: ps =>
    match renderParent env p with
    | some r => (renderParents env ps).map (fun rs => r :: rs)
    | none => none

/-- The parent preprocessing of `define_object_type` (general.rs:49-64):
filter out ignored supertypes, then render each; `none` when any rendering
reaches the `.unwrap()` panic. -/
def renderedParents (env : Env) (parents : List StatusedTypeId) :
    Option (List (String × Bool)) :=
  renderParents env (parents.filter (fun p => !p.ignored))

/-- The separator and class-name pair of `define_object_type`
(general.rs:66-72). -/
def sepClass (glib_class_name : Option String) : String × String :=
  match glib_class_name with
  | some s => (", ", "ffi::" ++ s)
  | none => ("", "")

/-- Embedding of `define_object_type` (general.rs:40-116).  The outer
`Option` is the panic of the parent preprocessing (reached before any
write); the `Except` layer is write-failure propagation.  The three
declaration shapes follow general.rs:76-108. -/
def define_object_type (s : Sink) (env : Env) (type_name glib_name : String)
    (glib_class_name : Option String) (glib_func_name : String)
    (parents : List StatusedTypeId) : Option (Except Sink Sink) :=
  match renderedParents env parents with
  | none => none
  | some rp =>
    let parentsR : List String := rp.map Prod.fst
    let external_parents : Bool := rp.any Prod.snd
    let sc := sepClass glib_class_name
    let head := "\tpub struct " ++ type_name ++ "(Object<ffi::" ++ glib_name
      ++ sc.1 ++ sc.2 ++ ">)"
    some (do
      let s ← writeLine s ""
      let s ← writeLine s "glib_wrapper! \x7b"
      let s ←
        if parentsR.isEmpty then
          writeLine s (head ++ ";")
        else if external_parents then do
          let s ← writeLine s (head ++ ": [")
          let s ← emitLines s (parentsR.map (fun p => "\t\t" ++ p ++ ","))
          writeLine s "\t];"
        else
          writeLine s (head ++ ": " ++ String.intercalate ", " parentsR ++ ";")
      let s ← writeLine s ""
      let s ← writeLine s "\tmatch fn \x7b"
      let s ← writeLine s ("\t\tget_type => || ffi::" ++ glib_func_name ++ "(),")
      let s ← writeLine s "\t\x7d"
      writeLine s "\x7d")

/-- Embedding of `define_boxed_type` (general.rs:118-149): the boxed-value
wrapper block, with the type-descriptor line only when a type-accessor
function is supplied. -/
def define_boxed_type (s : Sink) (type_name glib_name copy_fn free_fn : String)
    (get_type_fn : Option String) : Except Sink Sink := do
  let s ← writeLine s ""
  let s ← writeLine s "glib_wrapper! \x7b"
  let s ← writeLine s ("\tpub struct " ++ type_name ++ "(Boxed<ffi::"
    ++ glib_name ++ ">);")
  let s ← writeLine s ""
  let s ← writeLine s "\tmatch fn \x7b"
  let s ← writeLine s ("\t\tcopy => |ptr| ffi::" ++ copy_fn
    ++ "(mut_override(ptr)),")
  let s ← writeLine s ("\t\tfree => |ptr| ffi::" ++ free_fn ++ "(ptr),")
  let s ←
    match get_type_fn with
    | some g => writeLine s ("\t\tget_type => || ffi::" ++ g ++ "(),")
    | none => pure s
  let s ← writeLine s "\t\x7d"
  writeLine s "\x7d"

/-- The scan predicate of `declare_default_from_new` (general.rs:290-292):
not hidden, named "new", and with an empty rust parameter list. -/
def defaultNewPred (f : FnInfo) : Bool :=
  !f.hidden && f.name == "new" && f.rust_parameters.isEmpty

/-- Embedding of `declare_default_from_new` (general.rs:284-303): find the
first function matching `defaultNewPred`; if found, emit a blank line, the
version gate keyed on that function, and the Default impl block. -/
def declare_default_from_new (s : Sink) (env : Env) (name : String)
    (functions : List FnInfo) : Except Sink Sink :=
  match functions.find? defaultNewPred with
  | some func => do
    let s ← writeLine s ""
    let s ← version_condition s env func.version false 0
    let s ← writeLine s ("impl Default for " ++ name ++ " \x7b")
    let s ← writeLine s "    fn default() -> Self \x7b"
    let s ← writeLine s "        Self::new()"
    let s ← writeLine s "    \x7d"
    writeLine s "\x7d"
  | none => .ok s

/-! Pure denotations: each emitter writes a fixed list of lines computed
from its inputs, and the sink semantics are captured once by `emitLines`.
The lemmas below prove each monadic emitter equal to `emitLines` of its
line list. -/

/-- The lines `uses` writes: a blank line, then per import the optional
gate line and the import line. -/
def usesLines (env : Env) (imports : List (String × Option Version)) :
    List String :=
  "" :: imports.flatMap (fun e =>
    (version_condition_string env e.2 false 0).toList ++ [importLine env e.1])

/-- The head shared by the three struct lines of the object block: type
name, handle kind, native handle name and optional class-struct. -/
def objectHead (type_name glib_name : String)
    (glib_class_name : Option String) : String :=
  "\tpub struct " ++ type_name ++ "(Object<ffi::" ++ glib_name
    ++ (sepClass glib_class_name).1 ++ (sepClass glib_class_name).2 ++ ">)"

/-- The closing lines of the object block: blank line and the type-accessor
mapping. -/
def objectTail (glib_func_name : String) : List String :=
  ["", "\tmatch fn \x7b",
   "\t\tget_type => || ffi::" ++ glib_func_name ++ "(),", "\t\x7d", "\x7d"]

/-- The lines of the object wrapper block emitted by `define_object_type`
once the parents are rendered. -/
def objectLines (type_name glib_name : String)
    (glib_class_name : Option String) (glib_func_name : String)
    (rp : List (String × Bool)) : List String :=
  let parentsR : List String := rp.map Prod.fst
  let external_parents : Bool := rp.any Prod.snd
  let head := objectHead type_name glib_name glib_class_name
  ["", "glib_wrapper! \x7b"] ++
  (if parentsR.isEmpty then [head ++ ";"]
   else if external_parents then
     (head ++ ": [") :: (parentsR.map (fun p => "\t\t" ++ p ++ ",") ++ ["\t];"])
   else [head ++ ": " ++ String.intercalate ", " parentsR ++ ";"]) ++
  objectTail glib_func_name

/-- The lines `define_boxed_type` writes. -/
def boxedLines (type_name glib_name copy_fn free_fn : String)
    (get_type_fn : Option String) : List String :=
  ["", "glib_wrapper! \x7b",
   "\tpub struct " ++ type_name ++ "(Boxed<ffi::" ++ glib_name ++ ">);",
   "", "\tmatch fn \x7b",
   "\t\tcopy => |ptr| ffi::" ++ copy_fn ++ "(mut_override(ptr)),",
   "\t\tfree => |ptr| ffi::" ++ free_fn ++ "(ptr),"] ++
  ((get_type_fn.map (fun g => "\t\tget_type => || ffi::" ++ g ++ "(),")).toList) ++
  ["\t\x7d", "\x7d"]

/-- The lines `declare_default_from_new` writes. -/
def defaultNewLines (env : Env) (name : String) (functions : List FnInfo) :
    List String :=
  match functions.find? defaultNewPred with
  | some func =>
    "" :: (version_condition_string env func.version false 0).toList ++
    ["impl Default for " ++ name ++ " \x7b",
     "    fn default() -> Self \x7b",
     "        Self::new()",
     "    \x7d", "\x7d"]
  | none => []

theorem ok_bind (a : Sink) (f : Sink → Except Sink Sink) :
    (Except.ok a >>= f) = f a := rfl

theorem error_bind (e : Sink) (f : Sink → Except Sink Sink) :
    ((Except.error e : Except Sink Sink) >>= f) = .error e := rfl

theorem emitLines_nil (s : Sink) : emitLines s [] = .ok s := rfl

theorem bind_pure_ok (x : Except Sink Sink) :
    (x >>= fun a => Except.ok a) = x := by
  cases x <;> rfl

theorem emitLines_cons (s : Sink) (l : String) (ls : List String) :
    emitLines s (l :: ls) = (writeLine s l >>= fun s2 => emitLines s2 ls) := by
  cases h : writeLine s l <;> simp [emitLines, h, ok_bind, error_bind]

theorem emitLines_singleton (s : Sink) (l : String) :
    emitLines s [l] = writeLine s l := by
  rw [emitLines_cons]
  cases h : writeLine s l <;> simp [h, ok_bind, error_bind, emitLines_nil]

theorem emitLines_append (s : Sink) (L1 L2 : List String) :
    emitLines s (L1 ++ L2) =
      (emitLines s L1 >>= fun s2 => emitLines s2 L2) := by
  induction L1 generalizing s with
  | nil => simp [emitLines_nil, ok_bind]
  | cons l ls ih =>
    rw [List.cons_append, emitLines_cons, emitLines_cons]
    cases h : writeLine s l <;>
      simp [h, ok_bind, error_bind, ih]

theorem version_condition_eq (s : Sink) (env : Env) (version : Option Version)
    (commented : Bool) (indent : Nat) :
    version_condition s env version commented indent =
      emitLines s (version_condition_string env version commented indent).toList := by
  unfold version_condition
  cases version_condition_string env version commented indent <;>
    simp [emitLines_nil, emitLines_singleton]

theorem not_version_condition_eq (s : Sink) (version : Option Version)
    (commented : Bool) (indent : Nat) :
    not_version_condition s version commented indent =
      emitLines s (version.map (fun v => tabs indent
        ++ (if commented then "//" else "")
        ++ "#[cfg(any(not(" ++ v.to_cfg ++ "), feature = \"dox\"))]")).toList := by
  unfold not_version_condition
  cases version <;> simp [emitLines_nil, emitLines_singleton]

theorem uses_eq (s : Sink) (env : Env)
    (imports : List (String × Option Version)) :
    uses s env imports = emitLines s (usesLines env imports) := by
  unfold uses usesLines
  rw [emitLines_cons]
  cases h : writeLine s "" <;> simp only [h, ok_bind, error_bind]
  case ok s1 =>
    clear h
    induction imports generalizing s1 with
    | nil => simp [usesLoop, emitLines_nil]
    | cons e rest ih =>
      obtain ⟨name, version⟩ := e
      rw [List.flatMap_cons, emitLines_append]
      simp only [usesLoop, version_condition_eq, emitLines_append,
        emitLines_singleton, bind_assoc]
      cases hv : emitLines s1 (version_condition_string env version false 0).toList <;>
        simp only [ok_bind, error_bind]
      case ok s2 =>
        cases hw : writeLine s2 (importLine env name) <;>
          simp only [ok_bind, error_bind]
        exact ih _

theorem define_object_type_eq (s : Sink) (env : Env)
    (type_name glib_name : String) (glib_class_name : Option String)
    (glib_func_name : String) (parents : List StatusedTypeId) :
    define_object_type s env type_name glib_name glib_class_name
        glib_func_name parents =
      (renderedParents env parents).map (fun rp =>
        emitLines s (objectLines type_name glib_name glib_class_name
          glib_func_name rp)) := by
  unfold define_object_type objectLines objectHead objectTail
  cases hrp : renderedParents env parents with
  | none => rfl
  | some rp =>
    simp only [Option.map_some]
    congr 1
    by_cases hp : (List.map Prod.fst rp).isEmpty = true <;>
      by_cases he : rp.any Prod.snd = true <;>
      simp [hp, he, emitLines_cons, emitLines_append, emitLines_nil,
        bind_assoc, bind_pure_ok, ok_bind, error_bind]

theorem define_boxed_type_eq (s : Sink)
    (type_name glib_name copy_fn free_fn : String)
    (get_type_fn : Option String) :
    define_boxed_type s type_name glib_name copy_fn free_fn get_type_fn =
      emitLines s (boxedLines type_name glib_name copy_fn free_fn get_type_fn) := by
  unfold define_boxed_type boxedLines
  cases get_type_fn <;>
    simp [emitLines_cons, emitLines_append, emitLines_nil, bind_assoc,
      bind_pure_ok, ok_bind, error_bind]

theorem declare_default_from_new_eq (s : Sink) (env : Env) (name : String)
    (functions : List FnInfo) :
    declare_default_from_new s env name functions =
      emitLines s (defaultNewLines env name functions) := by
  unfold declare_default_from_new defaultNewLines
  cases hf : functions.find? defaultNewPred with
  | none => simp [emitLines_nil]
  | some func =>
    simp [version_condition_eq, emitLines_cons, emitLines_append,
      emitLines_nil, bind_assoc, bind_pure_ok, ok_bind, error_bind]

/-! Running the line semantics against concrete sinks: a never-failing
sink accepts every line; a sink with a budget of `k` remaining writes
accepts the first `k` lines and then fails, keeping what was written. -/

theorem emitLines_unbounded (w : List String) (L : List String) :
    emitLines ⟨w, none⟩ L = .ok ⟨w ++ L, none⟩ := by
  induction L generalizing w with
  | nil => simp [emitLines_nil]
  | cons l ls ih =>
    rw [emitLines_cons]
    simp [writeLine, ok_bind, ih]

theorem emitLines_budget (k : Nat) (w : List String) (L : List String) :
    emitLines ⟨w, some k⟩ L =
      if L.length ≤ k then .ok ⟨w ++ L, some (k - L.length)⟩
      else .error ⟨w ++ L.take k, some 0⟩ := by
  induction L generalizing w k with
  | nil => simp [emitLines_nil]
  | cons l ls ih =>
    rw [emitLines_cons]
    cases k with
    | zero => simp [writeLine, error_bind]
    | succ k =>
      simp only [writeLine, ok_bind, ih]
      by_cases h : ls.length ≤ k <;>
        simp [h, Nat.succ_le_succ_iff, List.append_assoc, Nat.succ_sub_succ]

/-! Helper characterizations used by several claim theorems. -/

theorem version_condition_string_isSome_iff (env : Env) (ver : Option Version)
    (commented : Bool) (indent : Nat) :
    (version_condition_string env ver commented indent).isSome = true ↔
      ∃ v, ver = some v ∧ Version.bgt v env.min_cfg_version = true := by
  unfold version_condition_string
  cases ver with
  | none => simp
  | some v =>
    by_cases h : Version.bgt v env.min_cfg_version = true <;> simp [h]

theorem renderParent_eq_none_iff (env : Env) (p : StatusedTypeId) :
    renderParent env p = none ↔
      (p.type_id.ns_id ≠ MAIN ∧ env.getGlibName p.type_id = none) := by
  unfold renderParent
  by_cases h : p.type_id.ns_id = MAIN
  · simp [h]
  · simp only [h, beq_iff_eq, if_false, ne_eq, not_false_iff, true_and]
    cases hg : env.getGlibName p.type_id <;> simp [hg, h]

theorem renderParents_cons (env : Env) (p : StatusedTypeId)
    (ps : List StatusedTypeId) :
    renderParents env (p :: ps) =
      match renderParent env p with
      | some r => (renderParents env ps).map (fun rs => r :: rs)
      | none => none := rfl

theorem renderParents_cons_eq_some (env : Env) (p : StatusedTypeId)
    (ps : List StatusedTypeId) (rp : List (String × Bool)) :
    renderParents env (p :: ps) = some rp ↔
      ∃ r rs, renderParent env p = some r ∧ renderParents env ps = some rs ∧
        rp = r :: rs := by
  rw [renderParents_cons]
  cases hp : renderParent env p with
  | none => simp
  | some r =>
    cases hps : renderParents env ps with
    | none => simp
    | some rs =>
      simp [eq_comm]

theorem renderParent_snd_iff (env : Env) (p : StatusedTypeId)
    (r : String × Bool) (h : renderParent env p = some r) :
    (r.2 = true ↔ p.type_id.ns_id ≠ MAIN) := by
  unfold renderParent at h
  by_cases hm : p.type_id.ns_id = MAIN
  · simp only [hm, beq_self_eq_true, if_true, Option.some.injEq] at h
    simp [← h, hm]
  · have hb : (p.type_id.ns_id == MAIN) = false := by simp [hm]
    rw [hb] at h
    simp only [Bool.false_eq_true, if_false] at h
    cases hg : env.getGlibName p.type_id with
    | none => rw [hg] at h; cases h
    | some fname =>
      rw [hg] at h
      simp only [Option.some.injEq] at h
      simp [← h, hm]

theorem renderParents_eq_none_iff (env : Env) (l : List StatusedTypeId) :
    renderParents env l = none ↔ ∃ p ∈ l, renderParent env p = none := by
  induction l with
  | nil => simp [renderParents]
  | cons p ps ih =>
    rw [renderParents_cons]
    cases hp : renderParent env p with
    | none => simp [hp]
    | some r =>
      cases hps : renderParents env ps with
      | none =>
        simp only [hps, Option.map_none]
        constructor
        · intro _
          obtain ⟨q, hq, hn⟩ := ih.mp hps
          exact ⟨q, List.mem_cons_of_mem _ hq, hn⟩
        · intro _; rfl
      | some rs =>
        simp only [hps, Option.map_some]
        constructor
        · intro hx; exact absurd hx (by simp)
        · intro hx
          exfalso
          obtain ⟨q, hq, hn⟩ := hx
          rcases List.mem_cons.mp hq with h1 | h1
          · subst h1; rw [hp] at hn; exact Option.noConfusion hn
          · exact absurd (ih.mpr ⟨q, h1, hn⟩) (by simp [hps])

theorem renderParents_length (env : Env) (l : List StatusedTypeId)
    (rp : List (String × Bool)) (h : renderParents env l = some rp) :
    rp.length = l.length := by
  induction l generalizing rp with
  | nil =>
    unfold renderParents at h
    simp only [Option.some.injEq] at h
    simp [← h]
  | cons p ps ih =>
    rw [renderParents_cons_eq_some] at h
    obtain ⟨r, rs, _, hps, hrp⟩ := h
    subst hrp
    simp [ih rs hps]

theorem renderParents_any_foreign (env : Env) (l : List StatusedTypeId)
    (rp : List (String × Bool)) (h : renderParents env l = some rp) :
    (rp.any Prod.snd = true ↔ ∃ p ∈ l, p.type_id.ns_id ≠ MAIN) := by
  induction l generalizing rp with
  | nil =>
    unfold renderParents at h
    simp only [Option.some.injEq] at h
    simp [← h]
  | cons p ps ih =>
    rw [renderParents_cons_eq_some] at h
    obtain ⟨r, rs, hr, hps, hrp⟩ := h
    subst hrp
    simp only [List.any_cons, List.mem_cons, Bool.or_eq_true]
    rw [ih rs hps, renderParent_snd_iff env p r hr]
    constructor
    · intro hx
      rcases hx with hx | ⟨q, hq, hn⟩
      · exact ⟨p, Or.inl rfl, hx⟩
      · exact ⟨q, Or.inr hq, hn⟩
    · intro hx
      obtain ⟨q, hq | hq, hn⟩ := hx
      · subst hq; exact Or.inl hn
      · exact Or.inr ⟨q, hq, hn⟩

theorem find?_first (p : FnInfo → Bool) (l1 : List FnInfo) (f : FnInfo)
    (l2 : List FnInfo) (h1 : ∀ g ∈ l1, p g = false) (hf : p f = true) :
    List.find? p (l1 ++ f :: l2) = some f := by
  induction l1 with
  | nil => simp [List.find?_cons, hf]
  | cons g gs ih =>
    have hg := h1 g (by simp)
    simp only [List.cons_append, List.find?_cons, hg]
    exact ih (fun x hx => h1 x (by simp [hx]))

theorem defaultNewPred_iff (f : FnInfo) :
    defaultNewPred f = true ↔
      (f.hidden = false ∧ f.name = "new" ∧ f.rust_parameters = []) := by
  unfold defaultNewPred
  simp [List.isEmpty_iff, Bool.not_eq_true', and_assoc]

theorem append_singleton_ne (w : List String) (l : String) : w ++ [l] ≠ w := by
  intro h
  have := congrArg List.length h
  simp at this

theorem gateBlock_length (env : Env)
    (imports : List (String × Option Version)) :
    (imports.flatMap (fun e =>
        (version_condition_string env e.2 false 0).toList
          ++ [importLine env e.1])).length =
      imports.length + imports.countP
        (fun e => (version_condition_string env e.2 false 0).isSome) := by
  induction imports with
  | nil => simp
  | cons e rest ih =>
    simp only [List.flatMap_cons, List.length_append, List.countP_cons, ih]
    cases hv : version_condition_string env e.2 false 0 <;>
      simp [hv] <;> omega

/-! Claim theorems. -/

/-- C2: for every version condition, baseline, commented flag and indent,
the positive gate (`version_condition` / `version_condition_string`) emits
no line iff the condition is absent or does not exceed the baseline, and
otherwise emits exactly one line; the negative gate
(`not_version_condition`) emits exactly one line iff the condition is
present, with no baseline filtering (it takes no environment at all). -/
theorem C2_gate_baseline_asymmetry (env : Env) (version : Option Version)
    (commented : Bool) (indent : Nat) (w : List String) :
    (version_condition_string env version commented indent = none ↔
      (version = none ∨
        ∃ v, version = some v ∧ Version.bgt v env.min_cfg_version = false))
    ∧ (version_condition ⟨w, none⟩ env version commented indent = .ok ⟨w, none⟩ ↔
      (version = none ∨
        ∃ v, version = some v ∧ Version.bgt v env.min_cfg_version = false))
    ∧ ((∃ l, version_condition ⟨w, none⟩ env version commented indent =
          .ok ⟨w ++ [l], none⟩) ↔
      (∃ v, version = some v ∧ Version.bgt v env.min_cfg_version = true))
    ∧ ((∃ l, not_version_condition ⟨w, none⟩ version commented indent =
          .ok ⟨w ++ [l], none⟩) ↔ version.isSome = true)
    ∧ (not_version_condition ⟨w, none⟩ version commented indent =
          .ok ⟨w, none⟩ ↔ version = none) := by
  cases version with
  | none =>
    simp [version_condition, version_condition_string, not_version_condition]
  | some v =>
    by_cases hv : Version.bgt v env.min_cfg_version = true
    · refine ⟨?_, ?_, ?_, ?_, ?_⟩
      · simp [version_condition_string, hv]
      · simp only [version_condition, version_condition_string, hv, if_true,
          writeLine, Except.ok.injEq, Sink.mk.injEq]
        simp [append_singleton_ne, hv]
      · simp only [version_condition, version_condition_string, hv, if_true,
          writeLine, Except.ok.injEq, Sink.mk.injEq]
        constructor
        · intro _; exact ⟨v, rfl, hv⟩
        · intro _
          exact ⟨tabs indent ++ (if commented then "//" else "")
            ++ "#[cfg(any(" ++ v.to_cfg ++ ", feature = \"dox\"))]",
            by simp⟩
      · simp only [not_version_condition, writeLine, Except.ok.injEq,
          Sink.mk.injEq, Option.isSome_some, iff_true]
        exact ⟨tabs indent ++ (if commented then "//" else "")
          ++ "#[cfg(any(not(" ++ v.to_cfg ++ "), feature = \"dox\"))]",
          by simp⟩
      · simp [not_version_condition, writeLine, append_singleton_ne]
    · have hv2 : Version.bgt v env.min_cfg_version = false := by
        simp [Bool.not_eq_true] at hv; exact hv
      refine ⟨?_, ?_, ?_, ?_, ?_⟩
      · simp [version_condition_string, hv2, hv]
      · simp [version_condition, version_condition_string, hv2, hv]
      · simp only [version_condition, version_condition_string, hv2,
          Bool.false_eq_true, if_false]
        constructor
        · intro hx
          obtain ⟨l, hl⟩ := hx
          exact absurd hl.symm (by
            simp only [Except.ok.injEq, Sink.mk.injEq]
            simp [append_singleton_ne])
        · intro hx
          obtain ⟨v2, hv2x, hb⟩ := hx
          injection hv2x with he
          subst he
          rw [hb] at hv2
          cases hv2
      · simp only [not_version_condition, writeLine, Except.ok.injEq,
          Sink.mk.injEq, Option.isSome_some, iff_true]
        exact ⟨tabs indent ++ (if commented then "//" else "")
          ++ "#[cfg(any(not(" ++ v.to_cfg ++ "), feature = \"dox\"))]",
          by simp⟩
      · simp [not_version_condition, writeLine, append_singleton_ne]

/-- C5: `uses` emits exactly one import line per entry of the import set,
in iteration order, each immediately preceded by its positive version gate
line exactly when that gate applies (version present and above baseline). -/
theorem C5_uses_import_lines (env : Env)
    (imports : List (String × Option Version)) (w : List String) :
    uses ⟨w, none⟩ env imports = .ok ⟨w ++ usesLines env imports, none⟩
    ∧ usesLines env imports = "" :: imports.flatMap (fun e =>
        (version_condition_string env e.2 false 0).toList
          ++ [importLine env e.1])
    ∧ (usesLines env imports).length = 1 + imports.length +
        imports.countP
          (fun e => (version_condition_string env e.2 false 0).isSome)
    ∧ (∀ ver : Option Version,
        (version_condition_string env ver false 0).isSome = true ↔
          ∃ v, ver = some v ∧ Version.bgt v env.min_cfg_version = true) := by
  refine ⟨?_, rfl, ?_, ?_⟩
  · rw [uses_eq, emitLines_unbounded]
  · unfold usesLines
    simp only [List.length_cons, gateBlock_length]
    omega
  · intro ver
    exact version_condition_string_isSome_iff env ver false 0

/-- C10: `uses` writes one blank line before iterating the import set, so
for the empty set its output is exactly one blank line, and otherwise the
blank line precedes every gate and import line. -/
theorem C10_uses_blank_line (env : Env) (w : List String) :
    uses ⟨w, none⟩ env [] = .ok ⟨w ++ [""], none⟩
    ∧ ∀ imports, ∃ rest,
        uses ⟨w, none⟩ env imports = .ok ⟨w ++ "" :: rest, none⟩ := by
  constructor
  · rw [uses_eq, emitLines_unbounded]; rfl
  · intro imports
    refine ⟨imports.flatMap (fun e =>
      (version_condition_string env e.2 false 0).toList
        ++ [importLine env e.1]), ?_⟩
    rw [uses_eq, emitLines_unbounded]
    rfl

/-- C6: in `uses`, exactly one import substitution exists: when the primary
unit is itself the glib namespace and the imported module is "glib_ffi",
the line is the alias "use ffi as glib_ffi;"; every other combination is
emitted verbatim as "use name;". -/
theorem C6_import_substitution (env : Env) (name : String) (w : List String) :
    uses ⟨w, none⟩ env [(name, none)] =
      .ok ⟨w ++ ["", if env.glib_ns_id = MAIN ∧ name = "glib_ffi"
        then "use ffi as glib_ffi;" else "use " ++ name ++ ";"], none⟩ := by
  rw [uses_eq, emitLines_unbounded]
  have : usesLines env [(name, none)] = ["", importLine env name] := rfl
  rw [this]
  by_cases h1 : env.glib_ns_id = MAIN <;> by_cases h2 : name = "glib_ffi"
  · subst h2; simp [importLine, h1]
  · simp [importLine, h1, h2]
  · simp [importLine, h1]
  · simp [importLine, h1, h2]

/-- C7: with no type-accessor supplied, `define_boxed_type` emits exactly
one copy line (delegating to the copy function with the pointer coerced to
mutable) and one free line and no get_type line; with a type-accessor,
exactly one additional get_type line. -/
theorem C7_boxed_type_accessor (w : List String)
    (type_name glib_name copy_fn free_fn : String) :
    define_boxed_type ⟨w, none⟩ type_name glib_name copy_fn free_fn none =
      .ok ⟨w ++ ["", "glib_wrapper! \x7b",
        "\tpub struct " ++ type_name ++ "(Boxed<ffi::" ++ glib_name ++ ">);",
        "", "\tmatch fn \x7b",
        "\t\tcopy => |ptr| ffi::" ++ copy_fn ++ "(mut_override(ptr)),",
        "\t\tfree => |ptr| ffi::" ++ free_fn ++ "(ptr),",
        "\t\x7d", "\x7d"], none⟩
    ∧ ∀ g, define_boxed_type ⟨w, none⟩ type_name glib_name copy_fn free_fn
        (some g) =
      .ok ⟨w ++ ["", "glib_wrapper! \x7b",
        "\tpub struct " ++ type_name ++ "(Boxed<ffi::" ++ glib_name ++ ">);",
        "", "\tmatch fn \x7b",
        "\t\tcopy => |ptr| ffi::" ++ copy_fn ++ "(mut_override(ptr)),",
        "\t\tfree => |ptr| ffi::" ++ free_fn ++ "(ptr),",
        "\t\tget_type => || ffi::" ++ g ++ "(),",
        "\t\x7d", "\x7d"], none⟩ := by
  constructor
  · rw [define_boxed_type_eq, emitLines_unbounded]; rfl
  · intro g
    rw [define_boxed_type_eq, emitLines_unbounded]; rfl

/-- C9: `define_object_type` reaches the `.unwrap()` panic branch exactly
when some non-ignored foreign supertype of the input lacks a native glib
name; it is total on all other inputs. -/
theorem C9_supertype_unwrap_panic (s : Sink) (env : Env)
    (type_name glib_name : String) (glib_class_name : Option String)
    (glib_func_name : String) (parents : List StatusedTypeId) :
    define_object_type s env type_name glib_name glib_class_name
        glib_func_name parents = none ↔
      ∃ p ∈ parents, p.ignored = false ∧ p.type_id.ns_id ≠ MAIN ∧
        env.getGlibName p.type_id = none := by
  rw [define_object_type_eq]
  cases hrp : renderedParents env parents with
  | none =>
    refine iff_of_true (by simp) ?_
    unfold renderedParents at hrp
    obtain ⟨p, hpmem, hpnone⟩ := (renderParents_eq_none_iff env _).mp hrp
    have hmem := List.mem_filter.mp hpmem
    obtain ⟨hns, hg⟩ := (renderParent_eq_none_iff env p).mp hpnone
    exact ⟨p, hmem.1, by simpa using hmem.2, hns, hg⟩
  | some rp =>
    refine iff_of_false (by simp) ?_
    intro hx
    obtain ⟨p, hpmem, hig, hns, hg⟩ := hx
    have hpf : p ∈ parents.filter (fun p => !p.ignored) :=
      List.mem_filter.mpr ⟨hpmem, by simp [hig]⟩
    have : renderParents env (parents.filter (fun p => !p.ignored)) = none :=
      (renderParents_eq_none_iff env _).mpr
        ⟨p, hpf, (renderParent_eq_none_iff env p).mpr ⟨hns, hg⟩⟩
    unfold renderedParents at hrp
    rw [this] at hrp
    cases hrp

/-- C1: for every owned-object input whose parent rendering succeeds,
exactly one of three output shapes is chosen, keyed on the filtered
supertype list of the input: empty list gives the single-line declaration
with no inheritance clause; a list with at least one foreign entry gives
the multi-line bracketed shape with one rendered supertype line for every
entry, local ones included; a non-empty all-local list gives the
single-line declaration with the names joined by the ordinary
separator. -/
theorem C1_object_shape_selection (env : Env) (type_name glib_name : String)
    (glib_class_name : Option String) (glib_func_name : String)
    (parents : List StatusedTypeId) (rp : List (String × Bool))
    (w : List String) (h : renderedParents env parents = some rp) :
    define_object_type ⟨w, none⟩ env type_name glib_name glib_class_name
        glib_func_name parents =
      some (.ok ⟨w ++ objectLines type_name glib_name glib_class_name
        glib_func_name rp, none⟩)
    ∧ ((parents.filter (fun p => !p.ignored) = [] ∧
        objectLines type_name glib_name glib_class_name glib_func_name rp =
          ["", "glib_wrapper! \x7b",
           objectHead type_name glib_name glib_class_name ++ ";"]
            ++ objectTail glib_func_name)
      ∨ (parents.filter (fun p => !p.ignored) ≠ [] ∧
         (∃ p ∈ parents.filter (fun p => !p.ignored),
            p.type_id.ns_id ≠ MAIN) ∧
         objectLines type_name glib_name glib_class_name glib_func_name rp =
           ["", "glib_wrapper! \x7b",
            objectHead type_name glib_name glib_class_name ++ ": ["]
             ++ rp.map (fun r => "\t\t" ++ r.1 ++ ",") ++ ["\t];"]
             ++ objectTail glib_func_name)
      ∨ (parents.filter (fun p => !p.ignored) ≠ [] ∧
         (∀ p ∈ parents.filter (fun p => !p.ignored),
            p.type_id.ns_id = MAIN) ∧
         objectLines type_name glib_name glib_class_name glib_func_name rp =
           ["", "glib_wrapper! \x7b",
            objectHead type_name glib_name glib_class_name ++ ": "
              ++ String.intercalate ", " (rp.map Prod.fst) ++ ";"]
             ++ objectTail glib_func_name)) := by
  have hrw : define_object_type ⟨w, none⟩ env type_name glib_name
      glib_class_name glib_func_name parents =
      some (.ok ⟨w ++ objectLines type_name glib_name glib_class_name
        glib_func_name rp, none⟩) := by
    rw [define_object_type_eq, h]
    simp only [Option.map_some']
    rw [emitLines_unbounded]
  refine ⟨hrw, ?_⟩
  unfold renderedParents at h
  have hlen := renderParents_length env _ rp h
  have hforeign := renderParents_any_foreign env _ rp h
  by_cases hf : parents.filter (fun p => !p.ignored) = []
  · left
    have hrpnil : rp = [] := by
      rw [hf] at hlen
      exact List.eq_nil_of_length_eq_zero hlen
    subst hrpnil
    simp [objectLines, hf]
  · right
    have hrpne : rp ≠ [] := by
      intro hc
      rw [hc] at hlen
      exact hf (List.eq_nil_of_length_eq_zero hlen.symm)
    have hmapne : (rp.map Prod.fst).isEmpty = false := by
      rw [List.isEmpty_eq_false_iff_exists_mem]
      obtain ⟨r, hr⟩ := List.exists_mem_of_ne_nil rp hrpne
      exact ⟨r.1, List.mem_map_of_mem Prod.fst hr⟩
    by_cases ha : rp.any Prod.snd = true
    · left
      refine ⟨hf, hforeign.mp ha, ?_⟩
      simp [objectLines, hmapne, ha, List.map_map, Function.comp]
    · right
      have ha2 : rp.any Prod.snd = false := by
        revert ha; cases rp.any Prod.snd <;> simp
      refine ⟨hf, ?_, ?_⟩
      · intro p hp
        by_contra hc
        exact absurd (hforeign.mpr ⟨p, hp, hc⟩) (by simp [ha2])
      · simp [objectLines, hmapne, ha2]

/-- Environment used by concrete witnesses: the primary namespace is glib,
every foreign crate renders as "gdk", every type has native name
"GdkOther", and the baseline is 3.0. -/
def envW : Env := ⟨1, fun _ => "gdk", fun _ => some "GdkOther", ⟨3, 0⟩⟩

/-- Witness supertype list: a non-ignored local "Base" followed by a
non-ignored foreign "Other". -/
def parentsW : List StatusedTypeId :=
  [⟨⟨1, 0⟩, "Base", false⟩, ⟨⟨2, 1⟩, "Other", false⟩]

/-- Rendered form of `parentsW` under `envW`. -/
def rpW : List (String × Bool) :=
  [("Base", false), ("gdk::Other => gdk_ffi::GdkOther", true)]

/-- C1 witness: the mixed local/foreign scenario of the spec instantiates
the theorem; the bracketed multi-line shape is selected. -/
theorem C1_object_shape_selection_witness :
    renderedParents envW parentsW = some rpW
    ∧ (define_object_type ⟨[], none⟩ envW "Widget" "GtkWidget" none
          "gtk_widget_get_type" parentsW =
        some (.ok ⟨[] ++ objectLines "Widget" "GtkWidget" none
          "gtk_widget_get_type" rpW, none⟩)
      ∧ ((parentsW.filter (fun p => !p.ignored) = [] ∧
          objectLines "Widget" "GtkWidget" none "gtk_widget_get_type" rpW =
            ["", "glib_wrapper! \x7b",
             objectHead "Widget" "GtkWidget" none ++ ";"]
              ++ objectTail "gtk_widget_get_type")
        ∨ (parentsW.filter (fun p => !p.ignored) ≠ [] ∧
           (∃ p ∈ parentsW.filter (fun p => !p.ignored),
              p.type_id.ns_id ≠ MAIN) ∧
           objectLines "Widget" "GtkWidget" none "gtk_widget_get_type" rpW =
             ["", "glib_wrapper! \x7b",
              objectHead "Widget" "GtkWidget" none ++ ": ["]
               ++ rpW.map (fun r => "\t\t" ++ r.1 ++ ",") ++ ["\t];"]
               ++ objectTail "gtk_widget_get_type")
        ∨ (parentsW.filter (fun p => !p.ignored) ≠ [] ∧
           (∀ p ∈ parentsW.filter (fun p => !p.ignored),
              p.type_id.ns_id = MAIN) ∧
           objectLines "Widget" "GtkWidget" none "gtk_widget_get_type" rpW =
             ["", "glib_wrapper! \x7b",
              objectHead "Widget" "GtkWidget" none ++ ": "
                ++ String.intercalate ", " (rpW.map Prod.fst) ++ ";"]
               ++ objectTail "gtk_widget_get_type"))) :=
  ⟨rfl, C1_object_shape_selection envW "Widget" "GtkWidget" none
    "gtk_widget_get_type" parentsW rpW [] rfl⟩

/-- C3 counterexample: for the constructor list [hidden zero-argument
"new", non-hidden zero-argument "new"], `declare_default_from_new` does
emit a default-value block, so the claimed no-emission outcome is false at
this input. -/
theorem C3_hidden_first_counterexample :
    declare_default_from_new ⟨[], none⟩ envW "Widget"
        [⟨"new", true, [], none⟩, ⟨"new", false, [], some ⟨3, 2⟩⟩] ≠
      .ok ⟨[], none⟩ := by
  have hval : declare_default_from_new ⟨[], none⟩ envW "Widget"
      [⟨"new", true, [], none⟩, ⟨"new", false, [], some ⟨3, 2⟩⟩] =
      .ok ⟨["", "#[cfg(any(feature = \"v3_2\", feature = \"dox\"))]",
        "impl Default for Widget \x7b",
        "    fn default() -> Self \x7b",
        "        Self::new()",
        "    \x7d", "\x7d"], none⟩ := by
    rw [declare_default_from_new_eq, emitLines_unbounded]; rfl
  rw [hval]
  simp

/-- C3 amended: for the constructor list [("new", 0 params, hidden=true),
("new", 0 params, hidden=false)] in that order, `declare_default_from_new`
does emit a default-value block: the scan predicate skips the hidden first
entry and selects the later non-hidden zero-argument "new", gating the
block on that entry's version. -/
theorem C3_hidden_first_amended :
    declare_default_from_new ⟨[], none⟩ envW "Widget"
        [⟨"new", true, [], none⟩, ⟨"new", false, [], some ⟨3, 2⟩⟩] =
      .ok ⟨["", "#[cfg(any(feature = \"v3_2\", feature = \"dox\"))]",
        "impl Default for Widget \x7b",
        "    fn default() -> Self \x7b",
        "        Self::new()",
        "    \x7d", "\x7d"], none⟩ := by
  rw [declare_default_from_new_eq, emitLines_unbounded]; rfl

/-- C4: `declare_default_from_new` selects the first entry in list order
that is named "new", has no parameters and is not hidden, and emits the
gate keyed on that entry's version followed by the Default impl; with no
such entry it emits nothing; later matches are never examined. -/
theorem C4_default_new_first_match (env : Env) (name : String)
    (functions : List FnInfo) (w : List String) :
    ((∀ f ∈ functions,
        f.hidden = true ∨ f.name ≠ "new" ∨ f.rust_parameters ≠ []) →
      declare_default_from_new ⟨w, none⟩ env name functions = .ok ⟨w, none⟩)
    ∧ (∀ l1 f l2, functions = l1 ++ f :: l2 →
        f.hidden = false → f.name = "new" → f.rust_parameters = [] →
        (∀ g ∈ l1,
          g.hidden = true ∨ g.name ≠ "new" ∨ g.rust_parameters ≠ []) →
        declare_default_from_new ⟨w, none⟩ env name functions =
          .ok ⟨w ++ ("" ::
            ((version_condition_string env f.version false 0).toList ++
              ["impl Default for " ++ name ++ " \x7b",
               "    fn default() -> Self \x7b",
               "        Self::new()",
               "    \x7d", "\x7d"])), none⟩) := by
  constructor
  · intro hnone
    have hfind : functions.find? defaultNewPred = none := by
      rw [List.find?_eq_none]
      intro f hf hc
      obtain ⟨h1, h2, h3⟩ := (defaultNewPred_iff f).mp hc
      rcases hnone f hf with hx | hx | hx
      · rw [h1] at hx; cases hx
      · exact hx h2
      · exact hx h3
    have hlines : defaultNewLines env name functions = [] := by
      unfold defaultNewLines
      rw [hfind]
    rw [declare_default_from_new_eq, hlines, emitLines_unbounded,
      List.append_nil]
  · intro l1 f l2 heq hh hn hp hl1
    subst heq
    have hfirst : ∀ g ∈ l1, defaultNewPred g = false := by
      intro g hg
      by_contra hc
      have hc2 : defaultNewPred g = true := by
        revert hc; cases defaultNewPred g <;> simp
      obtain ⟨h1, h2, h3⟩ := (defaultNewPred_iff g).mp hc2
      rcases hl1 g hg with hx | hx | hx
      · rw [h1] at hx; cases hx
      · exact hx h2
      · exact hx h3
    have hfind : (l1 ++ f :: l2).find? defaultNewPred = some f :=
      find?_first defaultNewPred l1 f l2 hfirst
        ((defaultNewPred_iff f).mpr ⟨hh, hn, hp⟩)
    have hlines : defaultNewLines env name (l1 ++ f :: l2) =
        "" :: ((version_condition_string env f.version false 0).toList ++
          ["impl Default for " ++ name ++ " \x7b",
           "    fn default() -> Self \x7b",
           "        Self::new()",
           "    \x7d", "\x7d"]) := by
      unfold defaultNewLines
      rw [hfind]
      simp
    rw [declare_default_from_new_eq, hlines, emitLines_unbounded]

/-- C4 witness: with no qualifying constructor nothing is emitted; with a
one-parameter "new" first, a qualifying "new" second and another
qualifying "new" third, the second entry (the first qualifying one) is
selected. -/
theorem C4_default_new_first_match_witness :
    declare_default_from_new ⟨[], none⟩ envW "Widget"
        [⟨"make", false, [], none⟩] = .ok ⟨[], none⟩
    ∧ declare_default_from_new ⟨[], none⟩ envW "Widget"
        [⟨"new", false, ["a"], none⟩, ⟨"new", false, [], none⟩,
         ⟨"new", false, [], some ⟨9, 9⟩⟩] =
      .ok ⟨[] ++ ("" ::
        ((version_condition_string envW none false 0).toList ++
          ["impl Default for " ++ "Widget" ++ " \x7b",
           "    fn default() -> Self \x7b",
           "        Self::new()",
           "    \x7d", "\x7d"])), none⟩ :=
  ⟨(C4_default_new_first_match envW "Widget"
      [⟨"make", false, [], none⟩] []).1 (by decide),
   (C4_default_new_first_match envW "Widget"
      [⟨"new", false, ["a"], none⟩, ⟨"new", false, [], none⟩,
       ⟨"new", false, [], some ⟨9, 9⟩⟩] []).2
     [⟨"new", false, ["a"], none⟩] ⟨"new", false, [], none⟩
     [⟨"new", false, [], some ⟨9, 9⟩⟩] rfl rfl rfl rfl (by decide)⟩

/-- C8: every embedded emitter propagates the first write failure
immediately: when the sink accepts only `k` of the lines the emitter
writes, the emitter returns the error with exactly the first `k` lines
appended to the sink, performing no further writes and no rollback. -/
theorem C8_write_failure_propagation (w : List String) (k : Nat) :
    (∀ env imports, k < (usesLines env imports).length →
      uses ⟨w, some k⟩ env imports =
        .error ⟨w ++ (usesLines env imports).take k, some 0⟩)
    ∧ (∀ env type_name glib_name glib_class_name glib_func_name parents rp,
        renderedParents env parents = some rp →
        k < (objectLines type_name glib_name glib_class_name
          glib_func_name rp).length →
        define_object_type ⟨w, some k⟩ env type_name glib_name
            glib_class_name glib_func_name parents =
          some (.error ⟨w ++ (objectLines type_name glib_name
            glib_class_name glib_func_name rp).take k, some 0⟩))
    ∧ (∀ type_name glib_name copy_fn free_fn get_type_fn,
        k < (boxedLines type_name glib_name copy_fn free_fn
          get_type_fn).length →
        define_boxed_type ⟨w, some k⟩ type_name glib_name copy_fn free_fn
            get_type_fn =
          .error ⟨w ++ (boxedLines type_name glib_name copy_fn free_fn
            get_type_fn).take k, some 0⟩)
    ∧ (∀ env name functions, k < (defaultNewLines env name functions).length →
        declare_default_from_new ⟨w, some k⟩ env name functions =
          .error ⟨w ++ (defaultNewLines env name functions).take k,
            some 0⟩) := by
  refine ⟨?_, ?_, ?_, ?_⟩
  · intro env imports hk
    rw [uses_eq, emitLines_budget, if_neg (by omega)]
  · intro env type_name glib_name glib_class_name glib_func_name parents rp
      hrp hk
    rw [define_object_type_eq, hrp]
    simp only [Option.map_some']
    rw [emitLines_budget, if_neg (by omega)]
  · intro type_name glib_name copy_fn free_fn get_type_fn hk
    rw [define_boxed_type_eq, emitLines_budget, if_neg (by omega)]
  · intro env name functions hk
    rw [declare_default_from_new_eq, emitLines_budget, if_neg (by omega)]

/-- C8 witness: a sink that fails on its first write makes each emitter
return the error with nothing further written. -/
theorem C8_write_failure_propagation_witness :
    uses ⟨[], some 0⟩ envW [("glib", none)] =
      .error ⟨[] ++ (usesLines envW [("glib", none)]).take 0, some 0⟩
    ∧ define_object_type ⟨[], some 0⟩ envW "Widget" "GtkWidget" none
        "gtk_widget_get_type" parentsW =
      some (.error ⟨[] ++ (objectLines "Widget" "GtkWidget" none
        "gtk_widget_get_type" rpW).take 0, some 0⟩)
    ∧ define_boxed_type ⟨[], some 0⟩ "B" "GB" "copy" "free" none =
      .error ⟨[] ++ (boxedLines "B" "GB" "copy" "free" none).take 0, some 0⟩
    ∧ declare_default_from_new ⟨[], some 0⟩ envW "Widget"
        [⟨"new", false, [], none⟩] =
      .error ⟨[] ++ (defaultNewLines envW "Widget"
        [⟨"new", false, [], none⟩]).take 0, some 0⟩ :=
  ⟨(C8_write_failure_propagation [] 0).1 envW [("glib", none)] (by decide),
   (C8_write_failure_propagation [] 0).2.1 envW "Widget" "GtkWidget" none
     "gtk_widget_get_type" parentsW rpW rfl (by decide),
   (C8_write_failure_propagation [] 0).2.2.1 "B" "GB" "copy" "free" none
     (by decide),
   (C8_write_failure_propagation [] 0).2.2.2 envW "Widget"
     [⟨"new", false, [], none⟩] (by decide)⟩

end Gir
